import Mathlib

/-!
Verification of the stringql template-parameterization engine.

The repository ships the test suite (`stringql/pg_engine_test.py`) and a
diagnostics helper (`stringql/pg_utils.py`); the engine module itself
(`pg_engine.py`, with `parameterize_query` and `MyDb.do_query`, and
`defined_exceptions.py`) is not part of the source tree here, so the engine is
modelled from the specification (spec.md §3, §4.1, §4.2, §7), with the concrete
encodings that the test suite fixes (mode strings, error kinds, rendered SQL
text).

A query template is modelled as a list of segments: literal text and
brace-delimited placeholder tokens (spec §3 "Query Template": tokens are never
nested, so a template is exactly an alternation of literal text and tokens).
-/

namespace StringQL

/-- Modelled from the spec: the error taxonomy of §7 (`defined_exceptions.py`
is missing from the source tree). Each validation failure is a distinct,
catchable kind. -/
inductive QError
  | WrongModeArgument
  | WrongDataArgumentType
  | WrongNumberOfPlaceholders
  | QueryMissingElements
  | TooManyKwargs
deriving DecidableEq, Repr

/-- Modelled from the spec: one segment of a query template — either literal
text or a brace-delimited placeholder token `\x7bname\x7d` (spec §3). -/
inductive Seg
  | lit (s : String)
  | tok (name : String)
deriving DecidableEq, Repr

/-- A query template: an alternation of literal text and placeholder tokens
(spec §3 "Query Template"). -/
abbrev Template := List Seg

/-- Modelled from the spec: the shapes a keyword-argument value can take
(spec §3 "Keyword Arguments", §4.1 step 2): a single identifier string, an
ordered sequence of identifier strings, or an opaque literal value. -/
inductive Value
  | ident (s : String)
  | identList (ss : List String)
  | raw (s : String)
deriving DecidableEq, Repr

/-- Modelled from the spec: the shape of the optional data payload
(spec §3 "Data Payload"): an ordered sequence of positional values or a
mapping in insertion order. The `str` and `other` shapes record a bare string
respectively any other value passed as data, which the validator must reject
(test `test_wrong_data_type`). Payload values are opaque to the engine, so
they are carried as strings. -/
inductive Payload
  | seq (vals : List String)
  | map (kvs : List (String × String))
  | str (s : String)
  | other
deriving DecidableEq, Repr

/-- Double every double-quote character, the injection-escaping step of the
driver's quoted-identifier primitive (spec §6). -/
def escQuotes : List Char → List Char
  | [] => []
  | c :: cs => if c = '"' then '"' :: '"' :: escQuotes cs else c :: escQuotes cs

/-- Modelled from the spec: the driver-level quoted-identifier primitive
(spec §4.1 step 2, §6): wrap in double quotes, doubling embedded quotes. -/
def quoteIdent (s : String) : String :=
  String.mk ('"' :: (escQuotes s.data ++ ['"']))

/-- Modelled from the spec: a driver-native named placeholder `%(key)s`
for a mapping key (spec §4.1 step 3, glossary "Named placeholder"). -/
def namedPh (k : String) : String :=
  "%(" ++ k ++ ")s"

/-- Join a list of rendered fragments with a comma and a space
(spec §4.1: "joined by commas"). -/
def commaJoin : List String → String
  | [] => ""
  | [x] => x
  | x :: y :: xs => x ++ ", " ++ commaJoin (y :: xs)

/-- Modelled from the spec: render one keyword value (spec §4.1 step 2):
a single string becomes a quoted identifier, an ordered sequence becomes a
comma-joined sequence of quoted identifiers in input order, and an opaque
value is substituted raw. -/
def renderValue : Value → String
  | .ident s => quoteIdent s
  | .identList ss => commaJoin (ss.map quoteIdent)
  | .raw s => s

/-- Look up a keyword entry by placeholder name (first match). -/
def lookupKw (keywords : List (String × Value)) (name : String) : Option Value :=
  match keywords.find? (fun kv => kv.1 == name) with
  | some kv => some kv.2
  | none => none

/-- The source text of one segment: a token renders back as
`\x7bname\x7d`. -/
def segText : Seg → String
  | .lit s => s
  | .tok name => "\x7b" ++ name ++ "\x7d"

/-- The source text of a template, braces included (spec §3). -/
def tmplText : Template → String
  | [] => ""
  | s :: rest => segText s ++ tmplText rest

/-- Whether the template contains both literal dict-expansion tokens
`\x7bfields\x7d` and `\x7bplaceholders\x7d` (spec §4.1 step 3). -/
def hasDictTokens (tmpl : Template) : Bool :=
  tmpl.contains (Seg.tok "fields") && tmpl.contains (Seg.tok "placeholders")

/-- The mapping keys kept for dict-expansion: every key in insertion order
that is not present in `drop_keys` (spec §3 "Drop Keys", §4.1 step 3). -/
def keptKeys (kvs : List (String × String)) (dropKeys : List String) : List String :=
  (kvs.map Prod.fst).filter (fun k => !(dropKeys.contains k))

/-- Modelled from the spec: substitute one segment (spec §4.1 steps 2-4).
When dict-expansion is active (`dict = some keys`), the reserved tokens
`fields` and `placeholders` are synthesized from the kept mapping keys; any
other token is resolved from the keywords, and a token with no corresponding
keyword is left in the template text for the driver (spec §4.1 step 4). -/
def substSeg (keywords : List (String × Value)) (dict : Option (List String)) :
    Seg → String
  | .lit s => s
  | .tok name =>
    match dict with
    | some keys =>
      if name == "fields" then commaJoin (keys.map quoteIdent)
      else if name == "placeholders" then commaJoin (keys.map namedPh)
      else
        match lookupKw keywords name with
        | some v => renderValue v
        | none => "\x7b" ++ name ++ "\x7d"
    | none =>
      match lookupKw keywords name with
      | some v => renderValue v
      | none => "\x7b" ++ name ++ "\x7d"

/-- Render a whole template in one pass (spec §4.1 step 4). -/
def renderAll (keywords : List (String × Value)) (dict : Option (List String)) :
    Template → String
  | [] => ""
  | s :: rest => substSeg keywords dict s ++ renderAll keywords dict rest

/-- The composed statement text for a call without dict-expansion: the
identity fast path (spec §4.1 step 1) when no keywords are supplied,
otherwise one substitution pass. -/
def composedText (tmpl : Template) (keywords : List (String × Value)) : String :=
  if keywords.isEmpty then tmplText tmpl else renderAll keywords none tmpl

/-- Whether the keyword list supplies one of the two reserved dict-expansion
keys `fields` / `placeholders` directly (spec §3 invariant, §4.2
"Explicit mutual-exclusion check"). -/
def suppliesReserved (keywords : List (String × Value)) : Bool :=
  keywords.any (fun kv => kv.1 == "fields" || kv.1 == "placeholders")

/-- Modelled from the spec: `parameterize_query` (spec §4.1; `pg_engine.py`
is missing from the source tree). For a mapping payload, reject an explicit
`fields`/`placeholders` keyword with `TooManyKwargs` (spec §4.1 edge cases,
§4.2), reject a template missing the dict-expansion tokens with
`QueryMissingElements` (spec §4.1 step 3), and otherwise synthesize the two
generated clauses from the kept mapping keys. Without a mapping payload,
return the template unchanged when no keywords are supplied (identity fast
path, spec §4.1 step 1), else perform one substitution pass. -/
def parameterize_query (tmpl : Template) (data : Option Payload)
    (keywords : List (String × Value)) (dropKeys : List String) :
    Except QError String :=
  match data with
  | some (.map kvs) =>
    if suppliesReserved keywords then .error .TooManyKwargs
    else if !(hasDictTokens tmpl) then .error .QueryMissingElements
    else .ok (renderAll keywords (some (keptKeys kvs dropKeys)) tmpl)
  | _ => .ok (composedText tmpl keywords)

/-- Modelled from the spec: the three enumerated execution modes
(spec §3 "Mode"); the test suite fixes their concrete encodings as the short
strings `r`, `w` and `wr` (tests `test_create_table`,
`test_insert_from_tuple`, `test_insert_returning`). -/
def validModes : List String := ["r", "w", "wr"]

/-- The modes that imply a write (commit): `w` and `wr` (spec §3 "Mode",
§4.2 `DataTypeCheck`). -/
def writeModes : List String := ["w", "wr"]

/-- Count the literal positional placeholder markers `%s` in rendered
statement text, left to right and non-overlapping; a named placeholder
`%(key)s` contains no `%s` and is not counted (spec §4.2
`PlaceholderCountCheck`, glossary "Positional placeholder"). -/
def countMarks : List Char → Nat
  | '%' :: 's' :: rest => countMarks rest + 1
  | _ :: rest => countMarks rest
  | [] => 0

/-- Modelled from the spec: the `DataTypeCheck` stage (spec §4.2): data, if
present, must be a sequence or a mapping; a mapping payload is legal only
with a write-implying mode and a template that performs dict-expansion; a
bare string or any other shape fails with `WrongDataArgumentType`. -/
def dataTypeCheck (mode : String) (tmpl : Template) :
    Option Payload → Option QError
  | none => none
  | some (.seq _) => none
  | some (.map _) =>
    if writeModes.contains mode && hasDictTokens tmpl then none
    else some .WrongDataArgumentType
  | some (.str _) => some .WrongDataArgumentType
  | some .other => some .WrongDataArgumentType

/-- Modelled from the spec: the execute path `MyDb.do_query` up to the point
where the composed statement would be handed to the driver (spec §4.2; the
driver execution itself is an external collaborator, §6). The one-shot check
sequence is `ModeCheck → DataTypeCheck → PlaceholderCountCheck → Dispatch`
(spec §4.2), with parameterization in between and the placeholder count taken
on the post-parameterization text. Returns the statement text that reaches
the driver, or the validation error raised before anything reaches it. -/
def do_query (mode : String) (tmpl : Template) (data : Option Payload)
    (keywords : List (String × Value)) (dropKeys : List String) :
    Except QError String :=
  if !(validModes.contains mode) then .error .WrongModeArgument
  else
    match dataTypeCheck mode tmpl data with
    | some e => .error e
    | none =>
      match parameterize_query tmpl data keywords dropKeys with
      | .error e => .error e
      | .ok stmt =>
        match data with
        | some (.seq vals) =>
          if countMarks stmt.data ≠ vals.length then
            .error .WrongNumberOfPlaceholders
          else .ok stmt
        | _ => .ok stmt

/-- An identifier string with no embedded double-quote character, for which
the quoted-identifier primitive is plain wrapping in double quotes. -/
def noQuoteB (s : String) : Bool :=
  s.data.all (fun c => c != '"')

/-- Whether a segment is literal text (no placeholder needing
substitution). -/
def isLitSeg : Seg → Bool
  | .lit _ => true
  | .tok _ => false

/- Helper lemmas shared by the claim theorems. -/

/-- Escaping is the identity on a character list without double quotes. -/
theorem escQuotes_of_no_quote (l : List Char) (h : l.all (fun c => c != '"') = true) :
    escQuotes l = l := by
  induction l with
  | nil => rfl
  | cons c cs ih =>
    simp only [List.all_cons, Bool.and_eq_true, bne_iff_ne, ne_eq] at h
    simp only [escQuotes, if_neg h.1, ih h.2]

/-- On an identifier without embedded quotes, the quoted-identifier
primitive just wraps the string in double quotes. -/
theorem quoteIdent_of_no_quote (s : String) (h : noQuoteB s = true) :
    quoteIdent s = "\"" ++ s ++ "\"" := by
  apply String.ext
  simp only [quoteIdent, String.data_append]
  rw [escQuotes_of_no_quote s.data h]
  rfl

/-- The `DataTypeCheck` stage reports only `WrongDataArgumentType`. -/
theorem dataTypeCheck_eq_none_or_wrongData (mode : String) (tmpl : Template)
    (data : Option Payload) :
    dataTypeCheck mode tmpl data = none ∨
      dataTypeCheck mode tmpl data = some .WrongDataArgumentType := by
  unfold dataTypeCheck
  match data with
  | none => exact Or.inl rfl
  | some (.seq _) => exact Or.inl rfl
  | some (.map _) => split <;> simp
  | some (.str _) => exact Or.inr rfl
  | some .other => exact Or.inr rfl

/-- The parameterizer reports only `TooManyKwargs` or
`QueryMissingElements`. -/
theorem parameterize_query_cases (tmpl : Template) (data : Option Payload)
    (keywords : List (String × Value)) (dropKeys : List String) :
    (∃ s, parameterize_query tmpl data keywords dropKeys = .ok s) ∨
      parameterize_query tmpl data keywords dropKeys = .error .TooManyKwargs ∨
      parameterize_query tmpl data keywords dropKeys = .error .QueryMissingElements := by
  unfold parameterize_query
  match data with
  | none => exact Or.inl ⟨_, rfl⟩
  | some (.seq _) => exact Or.inl ⟨_, rfl⟩
  | some (.str _) => exact Or.inl ⟨_, rfl⟩
  | some .other => exact Or.inl ⟨_, rfl⟩
  | some (.map kvs) =>
    by_cases h1 : suppliesReserved keywords = true
    · right; left; simp [h1]
    · by_cases h2 : hasDictTokens tmpl = true
      · refine Or.inl ⟨renderAll keywords (some (keptKeys kvs dropKeys)) tmpl, ?_⟩
        simp [h1, h2]
      · right; right; simp [h1, h2]

/-- Membership in the valid-mode list is exactly being one of the three
short mode strings. -/
theorem validModes_contains_iff (mode : String) :
    validModes.contains mode = true ↔ (mode = "r" ∨ mode = "w" ∨ mode = "wr") := by
  simp [validModes, List.contains]

/- Claim theorems. -/

/-- C9: for every template with no placeholders needing substitution,
`parameterize_query` called with no keywords and no dict-expansion returns a
composed statement whose rendered text is identical to the template (identity
fast path). -/
theorem c9_identity_fast_path (tmpl : Template) (h : tmpl.all isLitSeg = true) :
    parameterize_query tmpl none [] [] = .ok (tmplText tmpl) := rfl

theorem c9_identity_fast_path_witness :
    [Seg.lit "select * from name_table"].all isLitSeg = true ∧
      parameterize_query [Seg.lit "select * from name_table"] none [] [] =
        .ok "select * from name_table" :=
  ⟨by decide,
    c9_identity_fast_path [Seg.lit "select * from name_table"] (by decide)⟩

/-- C5: calling the execute path with a mode that is not one of the three
enumerated mode values raises `WrongModeArgument`, regardless of the template
and data supplied. -/
theorem c5_mode_gate (mode : String) (tmpl : Template) (data : Option Payload)
    (keywords : List (String × Value)) (dropKeys : List String)
    (h : validModes.contains mode = false) :
    do_query mode tmpl data keywords dropKeys = .error .WrongModeArgument := by
  have h' : mode ∉ validModes := by simpa using h
  simp [do_query, h']

theorem c5_mode_gate_witness :
    validModes.contains "wrong_mode" = false ∧
      do_query "wrong_mode" [Seg.lit "select * from t"] none [] [] =
        .error .WrongModeArgument :=
  ⟨by decide,
    c5_mode_gate "wrong_mode" [Seg.lit "select * from t"] none [] [] (by decide)⟩

/-- C7: data, if present, must be a sequence or a mapping; a bare string
passed as data, or data of any other shape, fails the `DataTypeCheck` with
`WrongDataArgumentType` (a string does not count as a sequence here). -/
theorem c7_data_shape_gate (mode : String) (tmpl : Template) (s : String)
    (keywords : List (String × Value)) (dropKeys : List String)
    (h : validModes.contains mode = true) :
    do_query mode tmpl (some (.str s)) keywords dropKeys =
        .error .WrongDataArgumentType ∧
      do_query mode tmpl (some .other) keywords dropKeys =
        .error .WrongDataArgumentType := by
  have h' : mode ∈ validModes := by simpa using h
  constructor <;> simp [do_query, h', dataTypeCheck]

theorem c7_data_shape_gate_witness :
    validModes.contains "r" = true ∧
      do_query "r" [Seg.lit "select * from t where name = %s"]
          (some (.str "gianny")) [] [] =
        .error .WrongDataArgumentType :=
  ⟨by decide,
    (c7_data_shape_gate "r" [Seg.lit "select * from t where name = %s"]
      "gianny" [] [] (by decide)).1⟩

/-- C6: a mapping payload is legal only with a write-implying mode and a
dict-expanding template; a mapping paired with a read mode, or with a
template lacking the dict-expansion tokens, fails the validator with
`WrongDataArgumentType`. -/
theorem c6_map_payload_gate (mode : String) (tmpl : Template)
    (kvs : List (String × String)) (keywords : List (String × Value))
    (dropKeys : List String) (h : validModes.contains mode = true)
    (h2 : writeModes.contains mode = false ∨ hasDictTokens tmpl = false) :
    do_query mode tmpl (some (.map kvs)) keywords dropKeys =
      .error .WrongDataArgumentType := by
  have h' : mode ∈ validModes := by simpa using h
  have hc : ¬(mode ∈ writeModes ∧ hasDictTokens tmpl = true) := by
    rcases h2 with h2 | h2
    · have : mode ∉ writeModes := by simpa using h2
      exact fun hk => this hk.1
    · exact fun hk => by rw [h2] at hk; exact Bool.false_ne_true hk.2
  simp [do_query, h', dataTypeCheck, hc]

theorem c6_map_payload_gate_witness :
    validModes.contains "r" = true ∧ writeModes.contains "r" = false ∧
      do_query "r"
          [Seg.lit "insert into table_name ", Seg.tok "fields",
            Seg.lit " values (", Seg.tok "placeholders", Seg.lit ")"]
          (some (.map [("num", "1"), ("data", "x")])) [] [] =
        .error .WrongDataArgumentType :=
  ⟨by decide, by decide,
    c6_map_payload_gate "r"
      [Seg.lit "insert into table_name ", Seg.tok "fields",
        Seg.lit " values (", Seg.tok "placeholders", Seg.lit ")"]
      [("num", "1"), ("data", "x")] [] [] (by decide) (Or.inl (by decide))⟩

/-- C4: when the data payload is a mapping but the template lacks the literal
token `\x7bfields\x7d` or `\x7bplaceholders\x7d`, `parameterize_query` fails
with `QueryMissingElements` (raised before execution); the keywords obey the
data-model invariant that the reserved dict-expansion keys are never supplied
directly. -/
theorem c4_missing_elements (tmpl : Template) (kvs : List (String × String))
    (keywords : List (String × Value)) (dropKeys : List String)
    (h : suppliesReserved keywords = false) (h2 : hasDictTokens tmpl = false) :
    parameterize_query tmpl (some (.map kvs)) keywords dropKeys =
      .error .QueryMissingElements := by
  simp [parameterize_query, h, h2]

theorem c4_missing_elements_witness :
    suppliesReserved [("table", Value.ident "test_table")] = false ∧
      hasDictTokens
          [Seg.lit "insert into ", Seg.tok "table", Seg.lit " (",
            Seg.tok "columns", Seg.lit ") values (", Seg.tok "data_values",
            Seg.lit ")"] = false ∧
      parameterize_query
          [Seg.lit "insert into ", Seg.tok "table", Seg.lit " (",
            Seg.tok "columns", Seg.lit ") values (", Seg.tok "data_values",
            Seg.lit ")"]
          (some (.map [("num", "1"), ("data", "x")]))
          [("table", Value.ident "test_table")] [] =
        .error .QueryMissingElements :=
  ⟨by decide, by decide,
    c4_missing_elements
      [Seg.lit "insert into ", Seg.tok "table", Seg.lit " (",
        Seg.tok "columns", Seg.lit ") values (", Seg.tok "data_values",
        Seg.lit ")"]
      [("num", "1"), ("data", "x")] [("table", Value.ident "test_table")] []
      (by decide) (by decide)⟩

/-- C3: dict-expansion and explicit `fields`/`placeholders` keywords are
mutually exclusive per call: with a mapping payload, supplying either
reserved key makes `parameterize_query` fail with `TooManyKwargs`, and the
execute path with a write-implying mode and a dict-expanding template fails
with `TooManyKwargs` before any statement reaches the driver. -/
theorem c3_mutual_exclusion (mode : String) (tmpl : Template)
    (kvs : List (String × String)) (keywords : List (String × Value))
    (dropKeys : List String) (h : suppliesReserved keywords = true) :
    parameterize_query tmpl (some (.map kvs)) keywords dropKeys =
        .error .TooManyKwargs ∧
      ((mode = "w" ∨ mode = "wr") → hasDictTokens tmpl = true →
        do_query mode tmpl (some (.map kvs)) keywords dropKeys =
          .error .TooManyKwargs) := by
  constructor
  · simp [parameterize_query, h]
  · intro hm ht
    have hvalid : mode ∈ validModes := by
      rcases hm with hm | hm <;> subst hm <;> decide
    have hwrite : mode ∈ writeModes := by
      rcases hm with hm | hm <;> subst hm <;> decide
    simp [do_query, hvalid, dataTypeCheck, hwrite, ht, parameterize_query, h]

theorem c3_mutual_exclusion_witness :
    suppliesReserved
        [("table", Value.ident "test_table"),
          ("fields", Value.identList ["num", "data"]),
          ("placeholders", Value.raw "%s %s")] = true ∧
      do_query "w"
          [Seg.lit "insert into ", Seg.tok "table", Seg.lit " (",
            Seg.tok "fields", Seg.lit ") values (", Seg.tok "placeholders",
            Seg.lit ")"]
          (some (.map [("num", "1"), ("data", "x")]))
          [("table", Value.ident "test_table"),
            ("fields", Value.identList ["num", "data"]),
            ("placeholders", Value.raw "%s %s")] [] =
        .error .TooManyKwargs :=
  ⟨by decide,
    (c3_mutual_exclusion "w"
        [Seg.lit "insert into ", Seg.tok "table", Seg.lit " (",
          Seg.tok "fields", Seg.lit ") values (", Seg.tok "placeholders",
          Seg.lit ")"]
        [("num", "1"), ("data", "x")]
        [("table", Value.ident "test_table"),
          ("fields", Value.identList ["num", "data"]),
          ("placeholders", Value.raw "%s %s")] [] (by decide)).2
      (Or.inl rfl) (by decide)⟩

/-- With a valid mode, the execute path never reports
`WrongModeArgument`: that error is exclusive to the `ModeCheck` stage. -/
theorem do_query_valid_not_mode_error (mode : String) (tmpl : Template)
    (data : Option Payload) (keywords : List (String × Value))
    (dropKeys : List String) (h : mode ∈ validModes) :
    do_query mode tmpl data keywords dropKeys ≠ .error .WrongModeArgument := by
  rcases dataTypeCheck_eq_none_or_wrongData mode tmpl data with hd | hd
  · rcases parameterize_query_cases tmpl data keywords dropKeys with
      ⟨s, hp⟩ | hp | hp <;>
    · cases data with
      | none => simp [do_query, h, hd, hp]
      | some p => cases p <;> simp [do_query, h, hd, hp] <;> split <;> simp
  · simp [do_query, h, hd]

/-- C8: for a sequence-shaped payload whose length differs from the count of
literal positional `%s` markers in the post-parameterization statement text,
the validator fails with `WrongNumberOfPlaceholders`; a mapping-shaped
payload is exempt from the count check. -/
theorem c8_placeholder_count (mode : String) (tmpl : Template)
    (vals : List String) (kvs : List (String × String))
    (keywords : List (String × Value)) (dropKeys : List String)
    (h : validModes.contains mode = true)
    (h2 : countMarks (composedText tmpl keywords).data ≠ vals.length) :
    do_query mode tmpl (some (.seq vals)) keywords dropKeys =
        .error .WrongNumberOfPlaceholders ∧
      do_query mode tmpl (some (.map kvs)) keywords dropKeys ≠
        .error .WrongNumberOfPlaceholders := by
  have h' : mode ∈ validModes := by simpa using h
  constructor
  · simp [do_query, h', dataTypeCheck, parameterize_query, h2]
  · rcases dataTypeCheck_eq_none_or_wrongData mode tmpl (some (.map kvs)) with
      hd | hd
    · rcases parameterize_query_cases tmpl (some (.map kvs)) keywords dropKeys
        with ⟨s, hp⟩ | hp | hp <;> simp [do_query, h', hd, hp]
    · simp [do_query, h', hd]

theorem c8_placeholder_count_witness :
    validModes.contains "r" = true ∧
      countMarks
          (composedText [Seg.lit "select * from t where name = %s and age=%s"]
            []).data ≠ ["gianny"].length ∧
      do_query "r" [Seg.lit "select * from t where name = %s and age=%s"]
          (some (.seq ["gianny"])) [] [] =
        .error .WrongNumberOfPlaceholders :=
  ⟨by decide, by decide,
    (c8_placeholder_count "r"
      [Seg.lit "select * from t where name = %s and age=%s"] ["gianny"] []
      [] [] (by decide) (by decide)).1⟩

/-- C10: the execute path reports `WrongModeArgument` exactly when the mode
is none of the three short strings `r`, `w`, `wr`; in particular spelled-out
names such as `read` are rejected as invalid modes. -/
theorem c10_mode_encoding (mode : String) (tmpl : Template)
    (data : Option Payload) (keywords : List (String × Value))
    (dropKeys : List String) :
    do_query mode tmpl data keywords dropKeys = .error .WrongModeArgument ↔
      ¬(mode = "r" ∨ mode = "w" ∨ mode = "wr") := by
  constructor
  · intro he hr
    have hm : mode ∈ validModes := by simpa [validModes] using hr
    exact do_query_valid_not_mode_error mode tmpl data keywords dropKeys hm he
  · intro hr
    have hm : mode ∉ validModes := by simpa [validModes] using hr
    simp [do_query, hm]

/-- C2: a keyword entry whose value is a single string substitutes its token
with a quoted identifier, and a keyword entry whose value is an ordered
sequence of strings substitutes its token with a comma-joined list of quoted
identifiers in the same order as the input sequence. -/
theorem c2_keyword_substitution (a b k1 k2 s : String) (ss : List String)
    (kws1 kws2 : List (String × Value))
    (h1 : lookupKw kws1 k1 = some (.ident s)) (hq : noQuoteB s = true)
    (h2 : lookupKw kws2 k2 = some (.identList ss))
    (hqs : ss.all noQuoteB = true) :
    parameterize_query [Seg.lit a, Seg.tok k1, Seg.lit b] none kws1 [] =
        .ok (a ++ ("\"" ++ s ++ "\"") ++ b) ∧
      parameterize_query [Seg.lit a, Seg.tok k2, Seg.lit b] none kws2 [] =
        .ok (a ++ commaJoin (ss.map (fun x => "\"" ++ x ++ "\"")) ++ b) := by
  have hne1 : kws1.isEmpty = false := by
    cases kws1 with
    | nil => simp [lookupKw] at h1
    | cons x xs => rfl
  have hne2 : kws2.isEmpty = false := by
    cases kws2 with
    | nil => simp [lookupKw] at h2
    | cons x xs => rfl
  have hmap : ss.map quoteIdent = ss.map (fun x => "\"" ++ x ++ "\"") :=
    List.map_congr_left fun x hx =>
      quoteIdent_of_no_quote x (List.all_eq_true.mp hqs x hx)
  constructor
  · simp [parameterize_query, composedText, hne1, renderAll, substSeg, h1,
      renderValue, quoteIdent_of_no_quote s hq, String.append_assoc,
      String.append_empty]
  · simp [parameterize_query, composedText, hne2, renderAll, substSeg, h2,
      renderValue, hmap, String.append_assoc, String.append_empty]

theorem c2_keyword_substitution_witness :
    lookupKw [("col", Value.ident "name")] "col" =
        some (Value.ident "name") ∧
      lookupKw [("cols", Value.identList ["name", "surname"])] "cols" =
        some (Value.identList ["name", "surname"]) ∧
      parameterize_query
          [Seg.lit "select ", Seg.tok "col", Seg.lit " from name_table"]
          none [("col", Value.ident "name")] [] =
        .ok "select \"name\" from name_table" ∧
      parameterize_query
          [Seg.lit "select ", Seg.tok "cols", Seg.lit " from name_table"]
          none [("cols", Value.identList ["name", "surname"])] [] =
        .ok "select \"name\", \"surname\" from name_table" :=
  ⟨by decide, by decide,
    (c2_keyword_substitution "select " " from name_table" "col" "cols" "name"
      ["name", "surname"] [("col", Value.ident "name")]
      [("cols", Value.identList ["name", "surname"])] (by decide) (by decide)
      (by decide) (by decide)).1,
    (c2_keyword_substitution "select " " from name_table" "col" "cols" "name"
      ["name", "surname"] [("col", Value.ident "name")]
      [("cols", Value.identList ["name", "surname"])] (by decide) (by decide)
      (by decide) (by decide)).2⟩

/-- C1: dict expansion: with a mapping payload and a template containing both
literal tokens `\x7bfields\x7d` and `\x7bplaceholders\x7d`, the fields token
is substituted with one quoted identifier per mapping key not in the drop
keys and the placeholders token with one named placeholder `%(key)s` per such
key, both comma-joined in the mapping's insertion order, while the other
tokens resolve from the keywords. -/
theorem c1_dict_expansion (a b c d tname tv : String)
    (kvs : List (String × String)) (dropKeys : List String)
    (h1 : tname ≠ "fields") (h2 : tname ≠ "placeholders")
    (hq : noQuoteB tv = true)
    (hks : (keptKeys kvs dropKeys).all noQuoteB = true) :
    parameterize_query
        [Seg.lit a, Seg.tok tname, Seg.lit b, Seg.tok "fields", Seg.lit c,
          Seg.tok "placeholders", Seg.lit d]
        (some (.map kvs)) [(tname, Value.ident tv)] dropKeys =
      .ok (a ++ ("\"" ++ tv ++ "\"") ++ b ++
        commaJoin
          ((keptKeys kvs dropKeys).map (fun x => "\"" ++ x ++ "\"")) ++ c ++
        commaJoin
          ((keptKeys kvs dropKeys).map (fun x => "%(" ++ x ++ ")s")) ++ d) := by
  have hres : suppliesReserved [(tname, Value.ident tv)] = false := by
    simp [suppliesReserved, h1, h2]
  have hdt : hasDictTokens
      [Seg.lit a, Seg.tok tname, Seg.lit b, Seg.tok "fields", Seg.lit c,
        Seg.tok "placeholders", Seg.lit d] = true := by
    simp [hasDictTokens, List.contains]
  have hmap : (keptKeys kvs dropKeys).map quoteIdent =
      (keptKeys kvs dropKeys).map (fun x => "\"" ++ x ++ "\"") :=
    List.map_congr_left fun x hx =>
      quoteIdent_of_no_quote x (List.all_eq_true.mp hks x hx)
  have hmap2 : (keptKeys kvs dropKeys).map namedPh =
      (keptKeys kvs dropKeys).map (fun x => "%(" ++ x ++ ")s") :=
    List.map_congr_left fun x _ => rfl
  simp [parameterize_query, hres, hdt, renderAll, substSeg, h1, h2, lookupKw,
    renderValue, quoteIdent_of_no_quote tv hq, hmap, hmap2,
    String.append_assoc, String.append_empty]

theorem c1_dict_expansion_witness :
    noQuoteB "test_table" = true ∧
      (keptKeys [("num", "1"), ("data", "x"), ("ignore_me", "0"),
          ("ignore_me_too!", "0")] ["ignore_me", "ignore_me_too!"]).all
        noQuoteB = true ∧
      parameterize_query
          [Seg.lit "insert into ", Seg.tok "table", Seg.lit " (",
            Seg.tok "fields", Seg.lit ") values (", Seg.tok "placeholders",
            Seg.lit ")"]
          (some (.map [("num", "1"), ("data", "x"), ("ignore_me", "0"),
            ("ignore_me_too!", "0")]))
          [("table", Value.ident "test_table")]
          ["ignore_me", "ignore_me_too!"] =
        .ok
          "insert into \"test_table\" (\"num\", \"data\") values (%(num)s, %(data)s)" :=
  ⟨by decide, by decide,
    c1_dict_expansion "insert into " " (" ") values (" ")" "table"
      "test_table"
      [("num", "1"), ("data", "x"), ("ignore_me", "0"), ("ignore_me_too!", "0")]
      ["ignore_me", "ignore_me_too!"] (by decide) (by decide) (by decide)
      (by decide)⟩

end StringQL
